import Mathlib

/-!
Verification of the integrity-checked KMS protocol layer of tink-go-gcpkms.

The Go sources are shallowly embedded: byte slices become `List Nat` (each
entry a byte value), `uint32`/`int64` arithmetic becomes `Nat`/`Int` with
explicit bounds, protobuf messages become structures, nullable wrapper
fields become `Option Int`, and every remote procedure call becomes an
explicit oracle argument supplying the response, so that each operation is
a pure function from its inputs and the remote responses to an
`Except`-typed outcome.
-/

set_option linter.unusedVariables false

namespace Gcpkms

/-- Byte sequences; each element is a byte value (0..255). -/
abbrev Bytes := List Nat

/-! ## CRC-32C (checksum.go and gcp_kms_aead.go)

Embedding of Go `hash/crc32` with the Castagnoli polynomial, as used by
`computeChecksum` (checksum.go) and `crc32c` (gcp_kms_aead.go). -/

/-- The reversed Castagnoli polynomial, Go `crc32.Castagnoli`. -/
def castagnoli : Nat := 0x82f63b78

/-- One conditional-xor-and-shift step of Go `crc32.simpleMakeTable`. -/
def crcEntryStep (crc : Nat) : Nat :=
  if crc % 2 = 1 then Nat.xor (crc / 2) castagnoli else crc / 2

/-- Eight steps of `crcEntryStep`, producing one table entry from index `i`. -/
def crcEntryAux : Nat → Nat → Nat
  | 0, crc => crc
  | n + 1, crc => crcEntryAux n (crcEntryStep crc)

/-- Go `crc32.MakeTable(crc32.Castagnoli)`: the 256-entry lookup table. -/
def makeCastagnoliTable : Array Nat :=
  Array.ofFn (fun i : Fin 256 => crcEntryAux 8 i.val)

/-- Package-level `crc32cTable` of checksum.go, computed once and shared. -/
def crc32cTable : Array Nat := makeCastagnoliTable

/-- One byte of Go `crc32.simpleUpdate`: `crc = tab[byte(crc)^v] ^ (crc >> 8)`. -/
def crcUpdateByte (tab : Array Nat) (crc v : Nat) : Nat :=
  Nat.xor (tab.getD (Nat.xor (crc % 256) (v % 256)) 0) (crc / 256)

/-- Go `crc32.simpleUpdate` over a byte sequence. -/
def crcUpdate (tab : Array Nat) (crc : Nat) (p : Bytes) : Nat :=
  p.foldl (crcUpdateByte tab) crc

/-- Go `crc32.Checksum(data, tab)`: update from 0 with pre- and
post-complement (`^crc`, on `uint32` the xor with `0xffffffff`). -/
def crcChecksumWith (tab : Array Nat) (data : Bytes) : Nat :=
  Nat.xor (crcUpdate tab (Nat.xor 0 0xffffffff) data) 0xffffffff

/-- checksum.go `computeChecksum`: the CRC-32C of `value` using the shared
package-level table, widened to `int64`. -/
def computeChecksum (value : Bytes) : Int :=
  Int.ofNat (crcChecksumWith crc32cTable value)

/-- gcp_kms_aead.go `crc32c`: rebuilds the Castagnoli table on each call and
returns the checksum as `uint32`. -/
def crc32c (data : Bytes) : Nat :=
  let t := makeCastagnoliTable
  crcChecksumWith t data

/-! ## kmspb message model

Structures mirroring the protobuf messages the adapters read and write.
A `google.protobuf.Int64Value` wrapper field is `Option Int`; its Go
accessor `GetValue()` returns 0 when the field is absent. -/

/-- Go `(*wrapperspb.Int64Value).GetValue()` on a possibly-nil field. -/
def getValue (o : Option Int) : Int := o.getD 0

instance {e a : Type} [DecidableEq e] [DecidableEq a] :
    DecidableEq (Except e a) := fun x y =>
  match x, y with
  | .error u, .error v =>
    if h : u = v then isTrue (by rw [h]) else
      isFalse (fun hc => h (Except.error.inj hc))
  | .ok u, .ok v =>
    if h : u = v then isTrue (by rw [h]) else
      isFalse (fun hc => h (Except.ok.inj hc))
  | .error _, .ok _ => isFalse Except.noConfusion
  | .ok _, .error _ => isFalse Except.noConfusion

/-- kmspb.EncryptRequest, the fields the adapters populate. -/
structure EncryptRequest where
  name : String
  plaintext : Bytes
  plaintextCrc32c : Option Int
  additionalAuthenticatedData : Bytes
  additionalAuthenticatedDataCrc32c : Option Int
deriving DecidableEq

/-- kmspb.EncryptResponse, the fields the adapters read. -/
structure EncryptResponse where
  name : String
  ciphertext : Bytes
  ciphertextCrc32c : Option Int
  verifiedPlaintextCrc32c : Bool
  verifiedAdditionalAuthenticatedDataCrc32c : Bool
deriving DecidableEq

/-- kmspb.DecryptRequest, the fields the adapters populate. -/
structure DecryptRequest where
  name : String
  ciphertext : Bytes
  ciphertextCrc32c : Option Int
  additionalAuthenticatedData : Bytes
  additionalAuthenticatedDataCrc32c : Option Int
deriving DecidableEq

/-- kmspb.DecryptResponse: plaintext, its checksum, and the remaining
fields of the protobuf message (which the adapter never consults). -/
structure DecryptResponse where
  plaintext : Bytes
  plaintextCrc32c : Option Int
  usedPrimary : Bool
  protectionLevelField : Nat
deriving DecidableEq

/-! ## String primitives

Models of the Go `strings` operations at the Unicode-scalar level: a Go
string prefix test and prefix trim coincide with these on the character
list of the string. -/

/-- Go `strings.HasPrefix(s, pre)`. -/
def hasStart (s pre : String) : Bool :=
  s.toList.take pre.toList.length == pre.toList

/-- Go `strings.TrimPrefix(s, pre)`: drop `pre` when present, otherwise
return `s` unchanged. -/
def trimStart (s pre : String) : String :=
  if hasStart s pre then String.mk (s.toList.drop pre.toList.length) else s

/-- Go `strings.ToLower` restricted to ASCII case mapping (the strings in
play are ASCII scheme markers). -/
def lowerAscii (s : String) : String := String.mk (s.toList.map Char.toLower)

/-! ## gRPC AEAD adapter (grpcAEAD, src/unnamed/part_000)

The remote `kms.Encrypt` / `kms.Decrypt` calls are modelled as an oracle
argument mapping the built request to either a transport error or a
response; everything around the call is translated from the source. -/

/-- Distinct error exits of `grpcAEAD.EncryptWithContext`, one per
`return nil, ...` site. -/
inductive EncryptError
  | remote (msg : String)
  | missingPlaintextChecksum
  | missingAadChecksum
  | keyNameMismatch
  | ciphertextChecksumMismatch
deriving DecidableEq

/-- The request built by `grpcAEAD.EncryptWithContext` (part_000 lines
64-70). -/
def grpcEncryptRequest (keyURI : String) (plaintext associatedData : Bytes) :
    EncryptRequest :=
  { name := keyURI
    plaintext := plaintext
    plaintextCrc32c := some (computeChecksum plaintext)
    additionalAuthenticatedData := associatedData
    additionalAuthenticatedDataCrc32c := some (computeChecksum associatedData) }

/-- The response validation of `grpcAEAD.EncryptWithContext` (part_000
lines 77-90): the four checks in source order. -/
def encryptValidate (keyURI : String) (resp : EncryptResponse) :
    Except EncryptError Bytes :=
  if !resp.verifiedPlaintextCrc32c then
    .error .missingPlaintextChecksum
  else if !resp.verifiedAdditionalAuthenticatedDataCrc32c then
    .error .missingAadChecksum
  else if !(hasStart resp.name keyURI) then
    .error .keyNameMismatch
  else if getValue resp.ciphertextCrc32c != computeChecksum resp.ciphertext then
    .error .ciphertextChecksumMismatch
  else
    .ok resp.ciphertext

/-- `grpcAEAD.EncryptWithContext`: build the request, make the single
remote call, validate the response. -/
def encryptWithContext (keyURI : String) (plaintext associatedData : Bytes)
    (remote : EncryptRequest → Except String EncryptResponse) :
    Except EncryptError Bytes :=
  match remote (grpcEncryptRequest keyURI plaintext associatedData) with
  | .error e => .error (.remote e)
  | .ok resp => encryptValidate keyURI resp

/-- Distinct error exits of `grpcAEAD.DecryptWithContext`. -/
inductive DecryptError
  | remote (msg : String)
  | plaintextChecksumMismatch
deriving DecidableEq

/-- The request built by `grpcAEAD.DecryptWithContext` (part_000 lines
96-102). -/
def grpcDecryptRequest (keyURI : String) (ciphertext associatedData : Bytes) :
    DecryptRequest :=
  { name := keyURI
    ciphertext := ciphertext
    ciphertextCrc32c := some (computeChecksum ciphertext)
    additionalAuthenticatedData := associatedData
    additionalAuthenticatedDataCrc32c := some (computeChecksum associatedData) }

/-- The response validation of `grpcAEAD.DecryptWithContext` (part_000
lines 109-113): the single plaintext-checksum check. -/
def decryptValidate (keyURI : String) (resp : DecryptResponse) :
    Except DecryptError Bytes :=
  if getValue resp.plaintextCrc32c != computeChecksum resp.plaintext then
    .error .plaintextChecksumMismatch
  else
    .ok resp.plaintext

/-- `grpcAEAD.DecryptWithContext`: build the request, make the single
remote call, validate the response. -/
def decryptWithContext (keyURI : String) (ciphertext associatedData : Bytes)
    (remote : DecryptRequest → Except String DecryptResponse) :
    Except DecryptError Bytes :=
  match remote (grpcDecryptRequest keyURI ciphertext associatedData) with
  | .error e => .error (.remote e)
  | .ok resp => decryptValidate keyURI resp

/-! ## kmspb enums used by the signer -/

/-- kmspb.CryptoKeyVersion_CryptoKeyVersionAlgorithm: the algorithm values
the signer distinguishes, plus representative unsupported values. -/
inductive Algorithm
  | cryptoKeyVersionAlgorithmUnspecified
  | googleSymmetricEncryption
  | rsaSignPss2048Sha256
  | rsaSignPss3072Sha256
  | rsaSignPss4096Sha256
  | rsaSignPss4096Sha512
  | rsaSignPkcs1_2048Sha256
  | rsaSignPkcs1_3072Sha256
  | rsaSignPkcs1_4096Sha256
  | rsaSignPkcs1_4096Sha512
  | rsaSignRawPkcs1_2048
  | rsaSignRawPkcs1_3072
  | rsaSignRawPkcs1_4096
  | rsaDecryptOaep2048Sha256
  | rsaDecryptOaep3072Sha256
  | rsaDecryptOaep4096Sha256
  | rsaDecryptOaep4096Sha512
  | ecSignP256Sha256
  | ecSignP384Sha384
  | ecSignSecp256k1Sha256
  | ecSignEd25519
  | hmacSha256
  | externalSymmetricEncryption
deriving DecidableEq

/-- kmspb.ProtectionLevel. -/
inductive ProtectionLevel
  | protectionLevelUnspecified
  | software
  | hsm
  | external
  | externalVpc
deriving DecidableEq

/-- kmspb.PublicKey_PublicKeyFormat. -/
inductive PublicKeyFormat
  | publicKeyFormatUnspecified
  | pem
  | nistPqc
deriving DecidableEq

/-- kmspb.ChecksummedData: raw bytes plus their attached checksum, the
inner `public_key` field of kmspb.PublicKey. -/
structure ChecksummedData where
  data : Bytes
  crc32cChecksum : Option Int
deriving DecidableEq

/-- kmspb.PublicKey, the fields the signer reads. -/
structure PublicKey where
  name : String
  algorithm : Algorithm
  protectionLevel : ProtectionLevel
  publicKey : ChecksummedData
deriving DecidableEq

/-- kmspb.GetPublicKeyRequest. -/
structure GetPublicKeyRequest where
  name : String
  publicKeyFormat : PublicKeyFormat
deriving DecidableEq

/-- kmspb.Digest: digest bytes tagged by the hash that produced them. -/
inductive Digest
  | sha256 (bytes : Bytes)
  | sha384 (bytes : Bytes)
  | sha512 (bytes : Bytes)
deriving DecidableEq

/-- kmspb.AsymmetricSignRequest, the fields the signer populates. The
proto zero values are the empty byte string and absent wrappers. -/
structure AsymmetricSignRequest where
  name : String
  data : Bytes := []
  dataCrc32c : Option Int := none
  digest : Option Digest := none
  digestCrc32c : Option Int := none
deriving DecidableEq

/-- kmspb.AsymmetricSignResponse, the fields the signer reads. -/
structure AsymmetricSignResponse where
  name : String
  signature : Bytes
  signatureCrc32c : Option Int
  verifiedDataCrc32c : Bool
  verifiedDigestCrc32c : Bool
deriving DecidableEq

/-- Split a character list at `'/'` separators; a model of the segment
structure that the anchored key-name regular expression inspects. -/
def splitOnSlash : List Char → List (List Char)
  | [] => [[]]
  | c :: rest =>
    match splitOnSlash rest with
    | [] => [[c]]
    | seg :: segs => if c = '/' then [] :: seg :: segs else (c :: seg) :: segs

/-- gcp_kms_grpc_signer.go `kmsKeyNameRegex.MatchString`: the anchored
pattern
projects/[^/]+/locations/[^/]+/keyRings/[^/]+/cryptoKeys/[^/]+/cryptoKeyVersions/[^/]+
holds exactly when the string splits at `'/'` into these ten segments with
the five variable segments nonempty (segments contain no `'/'` by
construction). -/
def kmsKeyNameMatches (s : String) : Bool :=
  match splitOnSlash s.toList with
  | [seg0, p, seg2, l, seg4, r, seg6, k, seg8, v] =>
    seg0 == "projects".toList && seg2 == "locations".toList &&
    seg4 == "keyRings".toList && seg6 == "cryptoKeys".toList &&
    seg8 == "cryptoKeyVersions".toList &&
    !p.isEmpty && !l.isEmpty && !r.isEmpty && !k.isEmpty && !v.isEmpty
  | _ => false

/-! ## Asymmetric signer (gcp_kms_grpc_signer.go)

The remote `GetPublicKey` call is modelled as an oracle indexed by the
attempt number (the retry loop re-issues the same request), and the remote
`AsymmetricSign` call as an oracle from the built request. The SHA-2
digest computations delegated to Go `crypto` are a parameter
`hashImpl : HashKind → Bytes → Bytes` of the functions that use them. -/

/-- Maximum size of the data that can be signed: `64 * 1024`. -/
def kmsMaxSignDataSize : Nat := 64 * 1024

/-- The Go `crypto.Hash` values the signer selects among. -/
inductive HashKind
  | sha256
  | sha384
  | sha512
deriving DecidableEq

/-- The error exits of the signer code, one per distinct `return nil, ...`
site; `checksumMismatch` is `errorChecksumMismatch` (wrapped with the
received and calculated values), recognised by `errors.Is`. -/
inductive SignerError
  | formatRequired
  | transport (msg : String)
  | checksumMismatch (received calculated : Int)
  | responseNameMismatch (respName reqName : String)
  | malformedKeyName (keyName : String)
  | nilClient
  | unsupportedAlgorithm (algorithm : Algorithm)
  | dataTooLarge (size : Nat)
  | noDigestForAlgorithm (algorithm : Algorithm)
  | remote (msg : String)
  | inputChecksumNotVerified
  | signatureChecksumMismatch
deriving DecidableEq

/-- `errors.Is(err, errorChecksumMismatch)`. -/
def SignerError.isChecksumMismatch : SignerError → Bool
  | .checksumMismatch _ _ => true
  | _ => false

/-- gcp_kms_grpc_signer.go `isSupported`: the switch listing the accepted
signing algorithms. -/
def isSupported (algorithm : Algorithm) : Bool :=
  match algorithm with
  | .ecSignEd25519
  | .ecSignP256Sha256
  | .ecSignP384Sha384
  | .ecSignSecp256k1Sha256
  | .rsaSignPss2048Sha256
  | .rsaSignPss3072Sha256
  | .rsaSignPss4096Sha256
  | .rsaSignPss4096Sha512
  | .rsaSignPkcs1_2048Sha256
  | .rsaSignPkcs1_3072Sha256
  | .rsaSignPkcs1_4096Sha256
  | .rsaSignPkcs1_4096Sha512
  | .rsaSignRawPkcs1_2048
  | .rsaSignRawPkcs1_3072
  | .rsaSignRawPkcs1_4096 => true
  | _ => false

/-- gcp_kms_grpc_signer.go `requiresDataForSign`: raw data is required for
ED25519 and the raw PKCS1 variants, and under EXTERNAL / EXTERNAL_VPC
protection levels. -/
def requiresDataForSign (algorithm : Algorithm)
    (protectionLevel : ProtectionLevel) : Bool :=
  match algorithm with
  | .ecSignEd25519
  | .rsaSignRawPkcs1_2048
  | .rsaSignRawPkcs1_3072
  | .rsaSignRawPkcs1_4096 => true
  | _ =>
    match protectionLevel with
    | .external | .externalVpc => true
    | _ => false

/-- gcp_kms_grpc_signer.go `tryGetPublicKey`: require an explicit key
format, surface transport errors, then validate the checksum of the
returned key bytes against the attached checksum field. -/
def tryGetPublicKey (req : GetPublicKeyRequest)
    (remoteResult : Except String PublicKey) : Except SignerError PublicKey :=
  if req.publicKeyFormat = .publicKeyFormatUnspecified then
    .error .formatRequired
  else
    match remoteResult with
    | .error e => .error (.transport e)
    | .ok response =>
      let checksumReceived := getValue response.publicKey.crc32cChecksum
      let checksumCalculated := computeChecksum response.publicKey.data
      if checksumReceived ≠ checksumCalculated then
        .error (.checksumMismatch checksumReceived checksumCalculated)
      else
        .ok response

/-- The `for i := 0; i < 3; i++` retry loop of `getPublicKey`: `continue`
exactly on a checksum-mismatch error while further iterations remain;
returns the final attempt result together with the number of remote calls
made. `i` is the current attempt index, `remaining` the number of further
iterations the loop bound allows. -/
def retryGetPublicKey (req : GetPublicKeyRequest)
    (remote : Nat → Except String PublicKey) :
    Nat → Nat → Except SignerError PublicKey × Nat
  | i, 0 => (tryGetPublicKey req (remote i), i + 1)
  | i, remaining + 1 =>
    match tryGetPublicKey req (remote i) with
    | .error e =>
      if e.isChecksumMismatch then retryGetPublicKey req remote (i + 1) remaining
      else (.error e, i + 1)
    | .ok pk => (.ok pk, i + 1)

/-- The request `getPublicKey` builds:
`&kmspb.GetPublicKeyRequest{Name: keyName, PublicKeyFormat: kmspb.PublicKey_PEM}`. -/
def pubKeyReq (keyName : String) : GetPublicKeyRequest :=
  { name := keyName, publicKeyFormat := .pem }

/-- gcp_kms_grpc_signer.go `getPublicKey`: a PEM-format request, the
3-attempt retry loop, then the exact response-name equality check. -/
def getPublicKey (keyName : String) (remote : Nat → Except String PublicKey) :
    Except SignerError PublicKey :=
  match (retryGetPublicKey (pubKeyReq keyName) remote 0 2).1 with
  | .error e => .error e
  | .ok response =>
    if response.name ≠ keyName then
      .error (.responseNameMismatch response.name keyName)
    else
      .ok response

/-- The number of remote `GetPublicKey` calls `getPublicKey` makes. -/
def getPublicKeyAttempts (keyName : String)
    (remote : Nat → Except String PublicKey) : Nat :=
  (retryGetPublicKey (pubKeyReq keyName) remote 0 2).2

/-- The signer handle: key name and fetched public key (the client stub is
represented by the oracle each operation takes). -/
structure GRPCSigner where
  keyName : String
  publicKey : PublicKey
deriving DecidableEq

/-- gcp_kms_grpc_signer.go `NewGRPCSigner`: syntactic key-name check and
nil-client check before any remote call, then the public-key fetch and the
supported-algorithm check. -/
def newGRPCSigner (keyName : String) (clientPresent : Bool)
    (remote : Nat → Except String PublicKey) : Except SignerError GRPCSigner :=
  if !kmsKeyNameMatches keyName then
    .error (.malformedKeyName keyName)
  else if !clientPresent then
    .error .nilClient
  else
    match getPublicKey keyName remote with
    | .error e => .error e
    | .ok publicKey =>
      if !isSupported publicKey.algorithm then
        .error (.unsupportedAlgorithm publicKey.algorithm)
      else
        .ok { keyName := keyName, publicKey := publicKey }

/-- gcp_kms_grpc_signer.go `digestHashForAlgorithm`. -/
def digestHashForAlgorithm (algorithm : Algorithm) :
    Except SignerError HashKind :=
  match algorithm with
  | .ecSignP256Sha256
  | .ecSignSecp256k1Sha256
  | .rsaSignPss2048Sha256
  | .rsaSignPss3072Sha256
  | .rsaSignPss4096Sha256
  | .rsaSignPkcs1_2048Sha256
  | .rsaSignPkcs1_3072Sha256
  | .rsaSignPkcs1_4096Sha256 => .ok .sha256
  | .ecSignP384Sha384 => .ok .sha384
  | .rsaSignPss4096Sha512
  | .rsaSignPkcs1_4096Sha512 => .ok .sha512
  | _ => .error (.noDigestForAlgorithm algorithm)

/-- gcp_kms_grpc_signer.go `calculateDigest`: select the hash, digest the
data, tag the digest bytes by the hash, and attach the digest checksum.
The `selectedHash.Available()` runtime-registration check always passes
here since the hash implementations are given. -/
def calculateDigest (hashImpl : HashKind → Bytes → Bytes) (data : Bytes)
    (algorithm : Algorithm) : Except SignerError (Digest × Int) :=
  match digestHashForAlgorithm algorithm with
  | .error e => .error e
  | .ok selectedHash =>
    let digestBytes := hashImpl selectedHash data
    let digest : Digest :=
      match selectedHash with
      | .sha256 => .sha256 digestBytes
      | .sha384 => .sha384 digestBytes
      | .sha512 => .sha512 digestBytes
    .ok (digest, computeChecksum digestBytes)

/-- gcp_kms_grpc_signer.go `buildAsymmetricSignRequest`. -/
def buildAsymmetricSignRequest (hashImpl : HashKind → Bytes → Bytes)
    (keyName : String) (data : Bytes) (algorithm : Algorithm)
    (protectionLevel : ProtectionLevel) :
    Except SignerError AsymmetricSignRequest :=
  if requiresDataForSign algorithm protectionLevel then
    .ok { name := keyName, data := data,
          dataCrc32c := some (computeChecksum data) }
  else
    match calculateDigest hashImpl data algorithm with
    | .error e => .error e
    | .ok (digest, digestCrc32c) =>
      .ok { name := keyName, digest := some digest,
            digestCrc32c := some digestCrc32c }

/-- The response validation of `GRPCSigner.SignWithContext` (lines
236-253): exact name equality, at least one verified-checksum flag, and
the recomputed signature checksum. -/
def signValidate (keyName : String) (response : AsymmetricSignResponse) :
    Except SignerError Bytes :=
  if response.name ≠ keyName then
    .error (.responseNameMismatch response.name keyName)
  else if !response.verifiedDataCrc32c && !response.verifiedDigestCrc32c then
    .error .inputChecksumNotVerified
  else if getValue response.signatureCrc32c ≠ computeChecksum response.signature then
    .error .signatureChecksumMismatch
  else
    .ok response.signature

/-- gcp_kms_grpc_signer.go `GRPCSigner.SignWithContext`: size check before
anything else, request build, single remote call, response validation. -/
def signWithContext (hashImpl : HashKind → Bytes → Bytes)
    (signer : GRPCSigner) (data : Bytes)
    (remote : AsymmetricSignRequest → Except String AsymmetricSignResponse) :
    Except SignerError Bytes :=
  if data.length > kmsMaxSignDataSize then
    .error (.dataTooLarge data.length)
  else
    match buildAsymmetricSignRequest hashImpl signer.keyName data
        signer.publicKey.algorithm signer.publicKey.protectionLevel with
    | .error e => .error e
    | .ok request =>
      match remote request with
      | .error e => .error (.remote e)
      | .ok response => signValidate signer.keyName response

/-! ## REST-transport AEAD adapter (gcp_kms_aead.go)

`gcpAEAD.Encrypt` declares empty `plaintextBase64` / `associatedDataBase64`
slices and calls `base64.URLEncoding.Encode(plaintext, plaintextBase64)`.
Go's `Encoding.Encode(dst, src)` writes the encoding of `src` into the
buffer `dst`; the call therefore encodes the empty `plaintextBase64` into
the caller's `plaintext` buffer (writing zero bytes) and leaves
`plaintextBase64` empty, and the request is then populated from the still
empty `plaintextBase64` / `associatedDataBase64` variables. -/

/-- The URL-safe base64 alphabet of Go `base64.URLEncoding`, as byte
values. -/
def b64UrlAlphabet : Bytes :=
  "ABCDEFGHIJKLMNOPQRSTUVWXYZabcdefghijklmnopqrstuvwxyz0123456789-_".toList.map Char.toNat

/-- One output byte of the URL-safe base64 alphabet. -/
def b64Char (n : Nat) : Nat := b64UrlAlphabet.getD n 0

/-- Padded URL-safe base64 encoding of a byte sequence (61 is `'='`). -/
def base64UrlEncode : Bytes → Bytes
  | [] => []
  | [a] => [b64Char (a / 4), b64Char (a % 4 * 16), 61, 61]
  | [a, b] => [b64Char (a / 4), b64Char (a % 4 * 16 + b / 16),
               b64Char (b % 16 * 4), 61]
  | a :: b :: c :: rest =>
    b64Char (a / 4) :: b64Char (a % 4 * 16 + b / 16) ::
    b64Char (b % 16 * 4 + c / 64) :: b64Char (c % 64) ::
    base64UrlEncode rest

/-- The contents of a Go byte buffer `dst` after
`base64.URLEncoding.Encode(dst, src)`: the encoding of `src` overwrites
the front of `dst`. -/
def base64EncodeInto (dst src : Bytes) : Bytes :=
  base64UrlEncode src ++ dst.drop (base64UrlEncode src).length

/-- The request built by `gcpAEAD.Encrypt` (gcp_kms_aead.go lines 49-69),
translated statement by statement: the `var` declarations introduce empty
slices, each `Encode(caller, callerBase64)` call updates the caller's
buffer (with the encoding of the empty slice), and the request fields are
read from the `...Base64` variables, which were never written. -/
def gcpAEADEncryptRequest (keyURI : String)
    (plaintext associatedData : Bytes) : EncryptRequest :=
  let plaintextBase64 : Bytes := []
  let associatedDataBase64 : Bytes := []
  let plaintextBuf := base64EncodeInto plaintext plaintextBase64
  let associatedDataBuf := base64EncodeInto associatedData associatedDataBase64
  let plaintextCRC32C := crc32c plaintextBase64
  let associatedDataCRC32C := crc32c associatedDataBase64
  { name := keyURI
    plaintext := plaintextBase64
    plaintextCrc32c := some (Int.ofNat plaintextCRC32C)
    additionalAuthenticatedData := associatedDataBase64
    additionalAuthenticatedDataCrc32c := some (Int.ofNat associatedDataCRC32C) }

/-! ## Client URI handling (NewClient / GetAEADWithContext / Client.GetAEAD) -/

/-- The constant `gcpPrefix` of the package: the URI scheme marker. -/
def gcpMarker : String := "gcp-kms://"

/-- The acceptance test of `NewClient`:
`strings.HasPrefix(strings.ToLower(uriPrefix), gcpPrefix)`. -/
def newClientAccepts (uriPrefix : String) : Bool :=
  hasStart (lowerAscii uriPrefix) gcpMarker

/-- The key name `GetAEADWithContext` passes to the gRPC AEAD once
`NewClient` accepted the URI: `strings.TrimPrefix(keyURI, gcpPrefix)`. -/
def getAEADWithContextKeyName (keyURI : String) : Option String :=
  if newClientAccepts keyURI then some (trimStart keyURI gcpMarker) else none

/-- `Client.Supported`: `strings.HasPrefix(keyURI, c.keyURIPrefix)`. -/
def clientSupports (keyURIStored keyURI : String) : Bool :=
  hasStart keyURI keyURIStored

/-- The key name `Client.GetAEAD` derives after its `Supported` check:
`strings.TrimPrefix(keyURI, gcpPrefix)`. -/
def clientGetAEADKeyName (keyURIStored keyURI : String) : Option String :=
  if clientSupports keyURIStored keyURI then some (trimStart keyURI gcpMarker)
  else none

end Gcpkms
namespace Gcpkms

theorem crcEntryStep_lt {crc : Nat} (h : crc < 2 ^ 32) :
    crcEntryStep crc < 2 ^ 32 := by
  unfold crcEntryStep
  split
  · exact Nat.xor_lt_two_pow (by omega) (by decide)
  · omega

theorem crcEntryAux_lt (n : Nat) {crc : Nat} (h : crc < 2 ^ 32) :
    crcEntryAux n crc < 2 ^ 32 := by
  induction n generalizing crc with
  | zero => exact h
  | succ n ih => exact ih (crcEntryStep_lt h)

theorem crc32cTable_getD_lt (i : Nat) : crc32cTable.getD i 0 < 2 ^ 32 := by
  unfold crc32cTable makeCastagnoliTable
  rcases Nat.lt_or_ge i 256 with h | h
  · rw [Array.getD, dif_pos (by simpa using h)]
    simpa using crcEntryAux_lt 8 (by omega : (⟨i, h⟩ : Fin 256).val < 2 ^ 32)
  · rw [Array.getD, dif_neg (by simpa using Nat.not_lt.mpr h)]
    decide

theorem crcUpdateByte_lt {crc : Nat} (v : Nat) (h : crc < 2 ^ 32) :
    crcUpdateByte crc32cTable crc v < 2 ^ 32 :=
  Nat.xor_lt_two_pow (crc32cTable_getD_lt _) (by omega)

theorem crcUpdate_lt (p : Bytes) {crc : Nat} (h : crc < 2 ^ 32) :
    crcUpdate crc32cTable crc p < 2 ^ 32 := by
  induction p generalizing crc with
  | nil => exact h
  | cons b rest ih => exact ih (crcUpdateByte_lt b h)

theorem crcChecksumWith_lt (data : Bytes) :
    crcChecksumWith crc32cTable data < 2 ^ 32 :=
  Nat.xor_lt_two_pow (crcUpdate_lt data (by decide)) (by decide)

set_option maxRecDepth 100000 in
/-- C9 -/
theorem checksum_impls_agree :
    (∀ v : Bytes, computeChecksum v = Int.ofNat (crc32c v)) ∧
    (∀ v : Bytes, crc32c v < 2 ^ 32 ∧ 0 ≤ computeChecksum v ∧
      computeChecksum v < 2 ^ 32) ∧
    crc32c [49, 50, 51, 52, 53, 54, 55, 56, 57] = 0xe3069283 := by
  refine ⟨fun v => rfl, fun v => ?_, ?_⟩
  · refine ⟨crcChecksumWith_lt v, Int.ofNat_nonneg _, ?_⟩
    have h := crcChecksumWith_lt v
    unfold computeChecksum
    rw [Int.ofNat_eq_natCast]
    omega
  · decide

end Gcpkms
namespace Gcpkms

/-- C1: after a successful remote call, `EncryptWithContext` performs the
four validations in source order — verified plaintext checksum, verified
associated-data checksum, response name has the requested name as a
prefix, recomputed ciphertext checksum equals the attached one — and
returns the raw ciphertext exactly when all four pass, the error of the
first failing check otherwise. -/
theorem encrypt_validates_four_checks_in_order (keyURI : String)
    (plaintext associatedData : Bytes)
    (remote : EncryptRequest → Except String EncryptResponse)
    (resp : EncryptResponse)
    (hremote : remote (grpcEncryptRequest keyURI plaintext associatedData) = .ok resp) :
    encryptWithContext keyURI plaintext associatedData remote = encryptValidate keyURI resp ∧
    ((∃ ct, encryptValidate keyURI resp = .ok ct) ↔
      (resp.verifiedPlaintextCrc32c = true ∧
       resp.verifiedAdditionalAuthenticatedDataCrc32c = true ∧
       hasStart resp.name keyURI = true ∧
       getValue resp.ciphertextCrc32c = computeChecksum resp.ciphertext)) ∧
    (∀ ct, encryptValidate keyURI resp = .ok ct → ct = resp.ciphertext) ∧
    (resp.verifiedPlaintextCrc32c = false →
      encryptValidate keyURI resp = .error .missingPlaintextChecksum) ∧
    (resp.verifiedPlaintextCrc32c = true →
      resp.verifiedAdditionalAuthenticatedDataCrc32c = false →
      encryptValidate keyURI resp = .error .missingAadChecksum) ∧
    (resp.verifiedPlaintextCrc32c = true →
      resp.verifiedAdditionalAuthenticatedDataCrc32c = true →
      hasStart resp.name keyURI = false →
      encryptValidate keyURI resp = .error .keyNameMismatch) ∧
    (resp.verifiedPlaintextCrc32c = true →
      resp.verifiedAdditionalAuthenticatedDataCrc32c = true →
      hasStart resp.name keyURI = true →
      getValue resp.ciphertextCrc32c ≠ computeChecksum resp.ciphertext →
      encryptValidate keyURI resp = .error .ciphertextChecksumMismatch) := by
  refine ⟨by simp [encryptWithContext, hremote], ?_⟩
  unfold encryptValidate
  rcases hp : resp.verifiedPlaintextCrc32c with _ | _ <;>
    rcases ha : resp.verifiedAdditionalAuthenticatedDataCrc32c with _ | _ <;>
    rcases hn : hasStart resp.name keyURI with _ | _ <;>
    by_cases hc : getValue resp.ciphertextCrc32c = computeChecksum resp.ciphertext <;>
    simp_all [bne_iff_ne]

/-- A successful encrypt response used to instantiate C1. -/
def encRespW : EncryptResponse :=
  { name := "k", ciphertext := [], ciphertextCrc32c := some 0,
    verifiedPlaintextCrc32c := true,
    verifiedAdditionalAuthenticatedDataCrc32c := true }

theorem encrypt_validates_four_checks_in_order_witness :
    (∃ ct, encryptValidate "k" encRespW = .ok ct) ∧
    encryptWithContext "k" [] [] (fun _ => .ok encRespW) =
      encryptValidate "k" encRespW := by
  have h := encrypt_validates_four_checks_in_order "k" [] []
    (fun _ => .ok encRespW) encRespW rfl
  exact ⟨h.2.1.mpr ⟨rfl, rfl, by decide, by decide⟩, h.1⟩

end Gcpkms
namespace Gcpkms

/-- C4: after a successful remote call, `DecryptWithContext` validates
only that the recomputed plaintext checksum equals the attached one,
returns the plaintext exactly when that single check passes, and its
verdict depends on no response field other than the plaintext and its
checksum (the response carries no key identifier and no verified flags to
check). -/
theorem decrypt_validates_only_plaintext_checksum (keyURI : String)
    (ciphertext associatedData : Bytes)
    (remote : DecryptRequest → Except String DecryptResponse)
    (resp : DecryptResponse)
    (hremote : remote (grpcDecryptRequest keyURI ciphertext associatedData) = .ok resp) :
    decryptWithContext keyURI ciphertext associatedData remote = decryptValidate keyURI resp ∧
    (decryptValidate keyURI resp = .ok resp.plaintext ↔
      getValue resp.plaintextCrc32c = computeChecksum resp.plaintext) ∧
    (decryptValidate keyURI resp = .error (.plaintextChecksumMismatch) ↔
      getValue resp.plaintextCrc32c ≠ computeChecksum resp.plaintext) ∧
    (∀ pt, decryptValidate keyURI resp = .ok pt → pt = resp.plaintext) ∧
    (∀ (keyURI' : String) (resp' : DecryptResponse),
      resp'.plaintext = resp.plaintext →
      resp'.plaintextCrc32c = resp.plaintextCrc32c →
      decryptValidate keyURI' resp' = decryptValidate keyURI resp) := by
  refine ⟨by simp [decryptWithContext, hremote], ?_, ?_, ?_, ?_⟩ <;>
    first
    | (intro keyURI' resp' h1 h2
       unfold decryptValidate
       rw [h1, h2])
    | (unfold decryptValidate
       by_cases hc : getValue resp.plaintextCrc32c = computeChecksum resp.plaintext <;>
         simp_all [bne_iff_ne])

/-- A successful decrypt response used to instantiate C4. -/
def decRespW : DecryptResponse :=
  { plaintext := [], plaintextCrc32c := some 0, usedPrimary := true,
    protectionLevelField := 1 }

theorem decrypt_validates_only_plaintext_checksum_witness :
    decryptValidate "k" decRespW = .ok [] ∧
    decryptWithContext "k" [] [] (fun _ => .ok decRespW) =
      decryptValidate "k" decRespW := by
  have h := decrypt_validates_only_plaintext_checksum "k" [] []
    (fun _ => .ok decRespW) decRespW rfl
  exact ⟨h.2.1.mpr (by decide), h.1⟩

end Gcpkms
namespace Gcpkms

/-- The public key of a digest-based signer (P-256/SHA-256, SOFTWARE)
used to instantiate the signing theorems. -/
def pkDigestW : PublicKey :=
  { name := "k", algorithm := .ecSignP256Sha256, protectionLevel := .software,
    publicKey := { data := [], crc32cChecksum := some 0 } }

/-- A sign response whose verified-data flag is set although a digest was
sent, and whose verified-digest flag is clear. -/
def signRespBothWrong : AsymmetricSignResponse :=
  { name := "k", signature := [], signatureCrc32c := some 0,
    verifiedDataCrc32c := true, verifiedDigestCrc32c := false }

/-- C2 counterexample: for a digest-based algorithm the built request
carries a digest and no data, yet a response in which only the
non-corresponding verified-data flag is set (the verified-digest flag is
clear) is accepted and the signature returned — the code does not check
that the set flag corresponds to the field that was sent, only that not
both flags are clear. -/
theorem sign_flag_correspondence_counterexample :
    buildAsymmetricSignRequest (fun _ _ => []) "k" [] .ecSignP256Sha256 .software =
      .ok { name := "k", digest := some (.sha256 []), digestCrc32c := some 0 } ∧
    signRespBothWrong.verifiedDigestCrc32c = false ∧
    signRespBothWrong.verifiedDataCrc32c = true ∧
    signWithContext (fun _ _ => []) { keyName := "k", publicKey := pkDigestW } []
      (fun _ => .ok signRespBothWrong) = .ok signRespBothWrong.signature :=
  ⟨rfl, rfl, rfl, rfl⟩

/-- C2 (amended): after a successful remote call, `SignWithContext`
validates, in order, that the response key name equals the requested one,
that at least one of the verified-data / verified-digest flags is set
(failing exactly when neither is), and that the recomputed signature
checksum equals the attached one; it returns the raw signature bytes
exactly when all three checks pass. -/
theorem sign_validates_name_flag_and_checksum (keyName : String)
    (resp : AsymmetricSignResponse) :
    (∀ (hashImpl : HashKind → Bytes → Bytes) (signer : GRPCSigner) (data : Bytes)
        (remote : AsymmetricSignRequest → Except String AsymmetricSignResponse)
        (request : AsymmetricSignRequest),
      data.length ≤ kmsMaxSignDataSize →
      buildAsymmetricSignRequest hashImpl signer.keyName data
        signer.publicKey.algorithm signer.publicKey.protectionLevel = .ok request →
      remote request = .ok resp →
      signWithContext hashImpl signer data remote = signValidate signer.keyName resp) ∧
    ((∃ sig, signValidate keyName resp = .ok sig) ↔
      (resp.name = keyName ∧
       (resp.verifiedDataCrc32c = true ∨ resp.verifiedDigestCrc32c = true) ∧
       getValue resp.signatureCrc32c = computeChecksum resp.signature)) ∧
    (∀ sig, signValidate keyName resp = .ok sig → sig = resp.signature) ∧
    (resp.name ≠ keyName →
      signValidate keyName resp = .error (.responseNameMismatch resp.name keyName)) ∧
    (resp.name = keyName → resp.verifiedDataCrc32c = false →
      resp.verifiedDigestCrc32c = false →
      signValidate keyName resp = .error .inputChecksumNotVerified) ∧
    (resp.name = keyName →
      (resp.verifiedDataCrc32c = true ∨ resp.verifiedDigestCrc32c = true) →
      getValue resp.signatureCrc32c ≠ computeChecksum resp.signature →
      signValidate keyName resp = .error .signatureChecksumMismatch) := by
  refine ⟨?_, ?_⟩
  · intro hashImpl signer data remote request hlen hbuild hremote
    unfold signWithContext
    rw [if_neg (Nat.not_lt.mpr hlen), hbuild]
    show (match remote request with
          | Except.error e => Except.error (SignerError.remote e)
          | Except.ok response => signValidate signer.keyName response) =
        signValidate signer.keyName resp
    rw [hremote]
  · refine ⟨?_, ?_, ?_, ?_, ?_⟩ <;>
      (unfold signValidate
       by_cases hn : resp.name = keyName <;>
         rcases hd : resp.verifiedDataCrc32c with _ | _ <;>
         rcases hg : resp.verifiedDigestCrc32c with _ | _ <;>
         by_cases hc : getValue resp.signatureCrc32c = computeChecksum resp.signature <;>
         simp_all)

/-- A fully valid sign response used to instantiate the amended C2. -/
def signRespOkW : AsymmetricSignResponse :=
  { name := "k", signature := [], signatureCrc32c := some 0,
    verifiedDataCrc32c := false, verifiedDigestCrc32c := true }

theorem sign_validates_name_flag_and_checksum_witness :
    (∃ sig, signValidate "k" signRespOkW = .ok sig) ∧
    signWithContext (fun _ _ => []) { keyName := "k", publicKey := pkDigestW } []
      (fun _ => .ok signRespOkW) = signValidate "k" signRespOkW := by
  have h := sign_validates_name_flag_and_checksum "k" signRespOkW
  refine ⟨h.2.1.mpr ⟨rfl, Or.inr rfl, by decide⟩, ?_⟩
  exact h.1 (fun _ _ => []) { keyName := "k", publicKey := pkDigestW } []
    (fun _ => .ok signRespOkW)
    { name := "k", digest := some (.sha256 []), digestCrc32c := some 0 }
    (by decide) rfl rfl

end Gcpkms
namespace Gcpkms

theorem buildAsymmetricSignRequest_error_shape
    (hashImpl : HashKind → Bytes → Bytes) (keyName : String) (data : Bytes)
    (alg : Algorithm) (prot : ProtectionLevel) (e : SignerError)
    (h : buildAsymmetricSignRequest hashImpl keyName data alg prot = .error e) :
    e = .noDigestForAlgorithm alg := by
  unfold buildAsymmetricSignRequest calculateDigest digestHashForAlgorithm at h
  cases alg <;> cases prot <;> simp_all [requiresDataForSign]

theorem signValidate_error_shape (keyName : String)
    (resp : AsymmetricSignResponse) (n : Nat) :
    signValidate keyName resp ≠ .error (.dataTooLarge n) := by
  unfold signValidate
  split_ifs <;> simp

/-- C7: `SignWithContext` returns the size-limit error, independently of
the remote service, exactly when the data exceeds 65536 bytes (the bound
`kmsMaxSignDataSize` is 64 KiB and the comparison is strict, so 65536
bytes are accepted); within the limit it builds the request and sends it
to the remote service. -/
theorem sign_rejects_oversized_data (hashImpl : HashKind → Bytes → Bytes)
    (signer : GRPCSigner) (data : Bytes) :
    kmsMaxSignDataSize = 65536 ∧
    (data.length > 65536 →
      ∀ remote, signWithContext hashImpl signer data remote =
        .error (.dataTooLarge data.length)) ∧
    (data.length ≤ 65536 →
      ∀ remote n, signWithContext hashImpl signer data remote ≠
        .error (.dataTooLarge n)) ∧
    (data.length ≤ 65536 →
      ∀ remote request,
        buildAsymmetricSignRequest hashImpl signer.keyName data
          signer.publicKey.algorithm signer.publicKey.protectionLevel = .ok request →
        signWithContext hashImpl signer data remote =
          (match remote request with
           | .error e => .error (.remote e)
           | .ok response => signValidate signer.keyName response)) := by
  refine ⟨rfl, ?_, ?_, ?_⟩
  · intro hbig remote
    unfold signWithContext
    rw [show kmsMaxSignDataSize = 65536 from rfl, if_pos hbig]
  · intro hlen remote n
    unfold signWithContext
    rw [show kmsMaxSignDataSize = 65536 from rfl, if_neg (Nat.not_lt.mpr hlen)]
    cases hb : buildAsymmetricSignRequest hashImpl signer.keyName data
        signer.publicKey.algorithm signer.publicKey.protectionLevel with
    | error e =>
      have := buildAsymmetricSignRequest_error_shape _ _ _ _ _ _ hb
      simp [this]
    | ok request =>
      cases hr : remote request with
      | error e => simp [hr]
      | ok response => simpa [hr] using signValidate_error_shape signer.keyName response n
  · intro hlen remote request hbuild
    unfold signWithContext
    rw [show kmsMaxSignDataSize = 65536 from rfl, if_neg (Nat.not_lt.mpr hlen), hbuild]

theorem sign_rejects_oversized_data_witness :
    signWithContext (fun _ _ => []) { keyName := "k", publicKey := pkDigestW }
      (List.replicate 65537 0) (fun _ => .ok signRespOkW) =
      .error (.dataTooLarge 65537) ∧
    signWithContext (fun _ _ => []) { keyName := "k", publicKey := pkDigestW }
      [] (fun _ => .ok signRespOkW) = .ok [] := by
  constructor
  · have h := (sign_rejects_oversized_data (fun _ _ => [])
      { keyName := "k", publicKey := pkDigestW } (List.replicate 65537 0)).2.1
      (by rw [List.length_replicate]; decide) (fun _ => .ok signRespOkW)
    rw [List.length_replicate] at h
    exact h
  · have h := (sign_rejects_oversized_data (fun _ _ => [])
      { keyName := "k", publicKey := pkDigestW } []).2.2.2 (by decide)
      (fun _ => .ok signRespOkW)
      { name := "k", digest := some (.sha256 []), digestCrc32c := some 0 } rfl
    rw [h]
    rfl

end Gcpkms
namespace Gcpkms

/-- The digest-tagging switch of `calculateDigest`. -/
def tagDigest : HashKind → Bytes → Digest
  | .sha256, b => .sha256 b
  | .sha384, b => .sha384 b
  | .sha512, b => .sha512 b

/-- C5: the sign request carries raw data plus its checksum (and no
digest) exactly for ED25519, the raw PKCS1 variants and the EXTERNAL /
EXTERNAL_VPC protection levels; otherwise it carries no data and instead
the digest of the data under the hash the algorithm implies — SHA-256 for
P-256, secp256k1 and the `_SHA256` RSA variants, SHA-384 for P-384,
SHA-512 for the `_SHA512` RSA variants — tagged by that hash, plus the
digest's checksum. -/
theorem sign_request_carries_data_or_digest
    (hashImpl : HashKind → Bytes → Bytes) (keyName : String) (data : Bytes)
    (alg : Algorithm) (prot : ProtectionLevel) :
    (requiresDataForSign alg prot = true ↔
      (alg = .ecSignEd25519 ∨ alg = .rsaSignRawPkcs1_2048 ∨
       alg = .rsaSignRawPkcs1_3072 ∨ alg = .rsaSignRawPkcs1_4096 ∨
       prot = .external ∨ prot = .externalVpc)) ∧
    (requiresDataForSign alg prot = true →
      buildAsymmetricSignRequest hashImpl keyName data alg prot =
        .ok { name := keyName, data := data,
              dataCrc32c := some (computeChecksum data),
              digest := none, digestCrc32c := none }) ∧
    (∀ hk, requiresDataForSign alg prot = false →
      digestHashForAlgorithm alg = .ok hk →
      buildAsymmetricSignRequest hashImpl keyName data alg prot =
        .ok { name := keyName, data := [], dataCrc32c := none,
              digest := some (tagDigest hk (hashImpl hk data)),
              digestCrc32c := some (computeChecksum (hashImpl hk data)) }) ∧
    digestHashForAlgorithm .ecSignP256Sha256 = .ok .sha256 ∧
    digestHashForAlgorithm .ecSignSecp256k1Sha256 = .ok .sha256 ∧
    digestHashForAlgorithm .rsaSignPss2048Sha256 = .ok .sha256 ∧
    digestHashForAlgorithm .rsaSignPss3072Sha256 = .ok .sha256 ∧
    digestHashForAlgorithm .rsaSignPss4096Sha256 = .ok .sha256 ∧
    digestHashForAlgorithm .rsaSignPkcs1_2048Sha256 = .ok .sha256 ∧
    digestHashForAlgorithm .rsaSignPkcs1_3072Sha256 = .ok .sha256 ∧
    digestHashForAlgorithm .rsaSignPkcs1_4096Sha256 = .ok .sha256 ∧
    digestHashForAlgorithm .ecSignP384Sha384 = .ok .sha384 ∧
    digestHashForAlgorithm .rsaSignPss4096Sha512 = .ok .sha512 ∧
    digestHashForAlgorithm .rsaSignPkcs1_4096Sha512 = .ok .sha512 := by
  refine ⟨?_, ?_, ?_, rfl, rfl, rfl, rfl, rfl, rfl, rfl, rfl, rfl, rfl, rfl⟩
  · cases alg <;> cases prot <;> decide
  · intro hreq
    unfold buildAsymmetricSignRequest
    rw [if_pos hreq]
  · intro hk hreq hhash
    unfold buildAsymmetricSignRequest
    rw [if_neg (by rw [hreq]; exact Bool.false_ne_true)]
    unfold calculateDigest
    rw [hhash]
    cases hk <;> rfl

theorem sign_request_carries_data_or_digest_witness :
    buildAsymmetricSignRequest (fun _ _ => [7]) "k" [1] .ecSignEd25519 .software =
      .ok { name := "k", data := [1], dataCrc32c := some (computeChecksum [1]) } ∧
    buildAsymmetricSignRequest (fun _ _ => [7]) "k" [1] .ecSignP256Sha256 .software =
      .ok { name := "k", digest := some (.sha256 [7]),
            digestCrc32c := some (computeChecksum [7]) } := by
  refine ⟨(sign_request_carries_data_or_digest (fun _ _ => [7]) "k" [1]
    .ecSignEd25519 .software).2.1 rfl, ?_⟩
  exact (sign_request_carries_data_or_digest (fun _ _ => [7]) "k" [1]
    .ecSignP256Sha256 .software).2.2.1 .sha256 rfl rfl

end Gcpkms
namespace Gcpkms

theorem isChecksumMismatch_iff (e : SignerError) :
    e.isChecksumMismatch = true ↔ ∃ a b, e = .checksumMismatch a b := by
  cases e <;> simp [SignerError.isChecksumMismatch]

/-- C6: the public-key fetch makes between 1 and 3 remote calls; its
result is the outcome of the last call made; every call before the last
failed with a checksum mismatch; the loop stops before the third call
only when the latest outcome is not a checksum mismatch (so a transport
or any other error ends the loop at once); and a loop-final error is
surfaced unchanged by `getPublicKey`. -/
theorem public_key_fetch_retries_only_on_checksum_mismatch (keyName : String)
    (remote : Nat → Except String PublicKey) :
    1 ≤ getPublicKeyAttempts keyName remote ∧
    getPublicKeyAttempts keyName remote ≤ 3 ∧
    (retryGetPublicKey (pubKeyReq keyName) remote 0 2).1 =
      tryGetPublicKey (pubKeyReq keyName)
        (remote (getPublicKeyAttempts keyName remote - 1)) ∧
    (∀ j, j + 1 < getPublicKeyAttempts keyName remote →
      ∃ a b, tryGetPublicKey (pubKeyReq keyName) (remote j) =
        .error (.checksumMismatch a b)) ∧
    (getPublicKeyAttempts keyName remote < 3 →
      ∀ a b, tryGetPublicKey (pubKeyReq keyName)
          (remote (getPublicKeyAttempts keyName remote - 1)) ≠
        .error (.checksumMismatch a b)) ∧
    (∀ e, (retryGetPublicKey (pubKeyReq keyName) remote 0 2).1 = .error e →
      getPublicKey keyName remote = .error e) := by
  have step2 : retryGetPublicKey (pubKeyReq keyName) remote 0 2 =
      match tryGetPublicKey (pubKeyReq keyName) (remote 0) with
      | .error e =>
        if e.isChecksumMismatch then retryGetPublicKey (pubKeyReq keyName) remote 1 1
        else (.error e, 1)
      | .ok pk => (.ok pk, 1) := rfl
  have step1 : retryGetPublicKey (pubKeyReq keyName) remote 1 1 =
      match tryGetPublicKey (pubKeyReq keyName) (remote 1) with
      | .error e =>
        if e.isChecksumMismatch then retryGetPublicKey (pubKeyReq keyName) remote 2 0
        else (.error e, 2)
      | .ok pk => (.ok pk, 2) := rfl
  have step0 : retryGetPublicKey (pubKeyReq keyName) remote 2 0 =
      (tryGetPublicKey (pubKeyReq keyName) (remote 2), 3) := rfl
  have hgp : ∀ (R : Except SignerError PublicKey) (N : Nat),
      retryGetPublicKey (pubKeyReq keyName) remote 0 2 = (R, N) →
      ∀ e, R = .error e → getPublicKey keyName remote = .error e := by
    intro R N hr e he
    unfold getPublicKey
    rw [hr]
    dsimp only
    rw [he]
  unfold getPublicKeyAttempts
  cases h0 : tryGetPublicKey (pubKeyReq keyName) (remote 0) with
  | ok pk0 =>
    have hres : retryGetPublicKey (pubKeyReq keyName) remote 0 2 = (.ok pk0, 1) := by
      rw [step2, h0]
    rw [hres]
    dsimp only
    refine ⟨le_refl 1, by omega, by rw [show (1:Nat) - 1 = 0 from rfl, h0],
      fun j hj => absurd hj (by omega), ?_, ?_⟩
    · intro _ a b
      rw [show (1:Nat) - 1 = 0 from rfl, h0]
      simp
    · intro e he
      exact absurd he (by simp)
  | error e0 =>
    by_cases hm0 : e0.isChecksumMismatch = true
    · obtain ⟨a0, b0, he0⟩ := (isChecksumMismatch_iff e0).mp hm0
      have c1 : retryGetPublicKey (pubKeyReq keyName) remote 0 2 =
          retryGetPublicKey (pubKeyReq keyName) remote 1 1 := by
        rw [step2, h0]
        exact if_pos hm0
      cases h1 : tryGetPublicKey (pubKeyReq keyName) (remote 1) with
      | ok pk1 =>
        have hres : retryGetPublicKey (pubKeyReq keyName) remote 0 2 = (.ok pk1, 2) := by
          rw [c1, step1, h1]
        rw [hres]
        dsimp only
        refine ⟨by omega, by omega, by rw [show (2:Nat) - 1 = 1 from rfl, h1], ?_, ?_, ?_⟩
        · intro j hj
          have hj0 : j = 0 := by omega
          exact hj0 ▸ ⟨a0, b0, by rw [h0, he0]⟩
        · intro _ a b
          rw [show (2:Nat) - 1 = 1 from rfl, h1]
          simp
        · intro e he
          exact absurd he (by simp)
      | error e1 =>
        by_cases hm1 : e1.isChecksumMismatch = true
        · obtain ⟨a1, b1, he1⟩ := (isChecksumMismatch_iff e1).mp hm1
          have hres : retryGetPublicKey (pubKeyReq keyName) remote 0 2 =
              (tryGetPublicKey (pubKeyReq keyName) (remote 2), 3) := by
            rw [c1, step1, h1]
            exact (if_pos hm1).trans step0
          rw [hres]
          dsimp only
          refine ⟨by omega, by omega, by rw [show (3:Nat) - 1 = 2 from rfl], ?_,
            fun h => absurd h (by omega), fun e he => hgp _ _ hres e he⟩
          intro j hj
          have hj2 : j = 0 ∨ j = 1 := by omega
          rcases hj2 with rfl | rfl
          · exact ⟨a0, b0, by rw [h0, he0]⟩
          · exact ⟨a1, b1, by rw [h1, he1]⟩
        · have hres : retryGetPublicKey (pubKeyReq keyName) remote 0 2 =
              (.error e1, 2) := by
            rw [c1, step1, h1]
            exact if_neg hm1
          rw [hres]
          dsimp only
          refine ⟨by omega, by omega, by rw [show (2:Nat) - 1 = 1 from rfl, h1], ?_, ?_,
            fun e he => hgp _ _ hres e (by exact he)⟩
          · intro j hj
            have hj0 : j = 0 := by omega
            exact hj0 ▸ ⟨a0, b0, by rw [h0, he0]⟩
          · intro _ a b hcontra
            rw [show (2:Nat) - 1 = 1 from rfl, h1] at hcontra
            refine hm1 ?_
            rw [(Except.error.inj hcontra : e1 = _)]
            rfl
    · have hres : retryGetPublicKey (pubKeyReq keyName) remote 0 2 =
          (.error e0, 1) := by
        rw [step2, h0]
        exact if_neg hm0
      rw [hres]
      dsimp only
      refine ⟨by omega, by omega, by rw [show (1:Nat) - 1 = 0 from rfl, h0],
        fun j hj => absurd hj (by omega), ?_,
        fun e he => hgp _ _ hres e (by exact he)⟩
      intro _ a b hcontra
      rw [show (1:Nat) - 1 = 0 from rfl, h0] at hcontra
      refine hm0 ?_
      rw [(Except.error.inj hcontra : e0 = _)]
      rfl

/-- A public key whose name is a full key-version path and whose attached
checksum matches its (empty) data. -/
def pkVersionedW : PublicKey :=
  { name := "projects/p/locations/l/keyRings/r/cryptoKeys/c/cryptoKeyVersions/1",
    algorithm := .ecSignP256Sha256, protectionLevel := .software,
    publicKey := { data := [], crc32cChecksum := some 0 } }

/-- A public key whose attached checksum matches its (empty) data. -/
def pkFetchOkW : PublicKey :=
  { name := "k", algorithm := .ecSignP256Sha256, protectionLevel := .software,
    publicKey := { data := [], crc32cChecksum := some 0 } }

theorem public_key_fetch_retries_witness :
    getPublicKeyAttempts "k" (fun _ => .ok pkFetchOkW) = 1 ∧
    getPublicKey "k" (fun _ => .error "unavailable") =
      .error (.transport "unavailable") := by
  constructor
  · rfl
  · exact (public_key_fetch_retries_only_on_checksum_mismatch "k"
      (fun _ => .error "unavailable")).2.2.2.2.2 (.transport "unavailable") rfl

end Gcpkms
namespace Gcpkms

theorem tryGetPublicKey_ok_checksum (req : GetPublicKeyRequest)
    (rr : Except String PublicKey) (pk : PublicKey)
    (h : tryGetPublicKey req rr = .ok pk) :
    getValue pk.publicKey.crc32cChecksum = computeChecksum pk.publicKey.data := by
  unfold tryGetPublicKey at h
  split at h
  · cases h
  · cases rr with
    | error e => cases h
    | ok response =>
      dsimp only at h
      by_cases hc : getValue response.publicKey.crc32cChecksum ≠
          computeChecksum response.publicKey.data
      · rw [if_pos hc] at h
        cases h
      · rw [if_neg hc] at h
        cases h
        exact not_ne_iff.mp hc

theorem retry_ok_from_try (req : GetPublicKeyRequest)
    (remote : Nat → Except String PublicKey) :
    ∀ (rem i : Nat) (pk : PublicKey),
      (retryGetPublicKey req remote i rem).1 = .ok pk →
      ∃ j, tryGetPublicKey req (remote j) = .ok pk := by
  intro rem
  induction rem with
  | zero => exact fun i pk h => ⟨i, h⟩
  | succ rem ih =>
    intro i pk h
    cases ht : tryGetPublicKey req (remote i) with
    | ok pk' =>
      refine ⟨i, ht.trans ?_⟩
      rw [show retryGetPublicKey req remote i (rem + 1) =
        (match tryGetPublicKey req (remote i) with
         | .error e =>
           if e.isChecksumMismatch then retryGetPublicKey req remote (i + 1) rem
           else (.error e, i + 1)
         | .ok pk => (.ok pk, i + 1)) from rfl, ht] at h
      exact congrArg Except.ok (Except.ok.inj h)
    | error e =>
      rw [show retryGetPublicKey req remote i (rem + 1) =
        (match tryGetPublicKey req (remote i) with
         | .error e =>
           if e.isChecksumMismatch then retryGetPublicKey req remote (i + 1) rem
           else (.error e, i + 1)
         | .ok pk => (.ok pk, i + 1)) from rfl, ht] at h
      dsimp only at h
      by_cases hm : e.isChecksumMismatch = true
      · rw [if_pos hm] at h
        exact ih (i + 1) pk h
      · rw [if_neg hm] at h
        cases h

theorem getPublicKey_ok_shape (keyName : String)
    (remote : Nat → Except String PublicKey) (pk : PublicKey)
    (h : getPublicKey keyName remote = .ok pk) :
    pk.name = keyName ∧
    getValue pk.publicKey.crc32cChecksum = computeChecksum pk.publicKey.data := by
  unfold getPublicKey at h
  cases hr : (retryGetPublicKey (pubKeyReq keyName) remote 0 2).1 with
  | error e =>
    rw [hr] at h
    cases h
  | ok response =>
    rw [hr] at h
    dsimp only at h
    by_cases hn : response.name ≠ keyName
    · rw [if_pos hn] at h
      cases h
    · rw [if_neg hn] at h
      cases h
      obtain ⟨j, hj⟩ := retry_ok_from_try (pubKeyReq keyName) remote 2 0 pk hr
      exact ⟨not_ne_iff.mp hn, tryGetPublicKey_ok_checksum _ _ _ hj⟩

/-- The 15 supported signing algorithms. -/
def supportedAlgorithms : List Algorithm :=
  [.ecSignEd25519, .ecSignP256Sha256, .ecSignP384Sha384, .ecSignSecp256k1Sha256,
   .rsaSignPss2048Sha256, .rsaSignPss3072Sha256, .rsaSignPss4096Sha256,
   .rsaSignPss4096Sha512, .rsaSignPkcs1_2048Sha256, .rsaSignPkcs1_3072Sha256,
   .rsaSignPkcs1_4096Sha256, .rsaSignPkcs1_4096Sha512, .rsaSignRawPkcs1_2048,
   .rsaSignRawPkcs1_3072, .rsaSignRawPkcs1_4096]

/-- C3: `NewGRPCSigner` checks the key-path grammar and the client before
any remote call; it returns a handle exactly when the grammar matches, the
client is present, the public-key fetch succeeds (which entails a matching
key-bytes checksum and exact name equality), and the resolved algorithm is
one of the 15 supported ones; an RSA-OAEP decryption algorithm is
rejected. -/
theorem signer_construction_accepts_iff (keyName : String)
    (clientPresent : Bool) (remote : Nat → Except String PublicKey) :
    (∀ alg, isSupported alg = true ↔ alg ∈ supportedAlgorithms) ∧
    supportedAlgorithms.length = 15 ∧
    isSupported .rsaDecryptOaep2048Sha256 = false ∧
    (kmsKeyNameMatches keyName = false →
      ∀ (b : Bool) (r : Nat → Except String PublicKey),
        newGRPCSigner keyName b r = .error (.malformedKeyName keyName)) ∧
    (kmsKeyNameMatches keyName = true →
      ∀ r : Nat → Except String PublicKey,
        newGRPCSigner keyName false r = .error .nilClient) ∧
    ((∃ signer, newGRPCSigner keyName clientPresent remote = .ok signer) ↔
      (kmsKeyNameMatches keyName = true ∧ clientPresent = true ∧
       ∃ pk, getPublicKey keyName remote = .ok pk ∧
         isSupported pk.algorithm = true)) ∧
    (∀ signer, newGRPCSigner keyName clientPresent remote = .ok signer →
      signer.keyName = keyName ∧
      getPublicKey keyName remote = .ok signer.publicKey) ∧
    (∀ pk, getPublicKey keyName remote = .ok pk →
      pk.name = keyName ∧
      getValue pk.publicKey.crc32cChecksum = computeChecksum pk.publicKey.data) := by
  refine ⟨fun alg => by cases alg <;> decide, rfl, rfl, ?_, ?_, ?_, ?_,
    fun pk h => getPublicKey_ok_shape keyName remote pk h⟩
  · intro h b r
    simp [newGRPCSigner, h]
  · intro h r
    simp [newGRPCSigner, h]
  · by_cases hm : kmsKeyNameMatches keyName = true
    · cases clientPresent with
      | false => simp [newGRPCSigner, hm]
      | true =>
        cases hg : getPublicKey keyName remote with
        | error e => simp [newGRPCSigner, hm, hg]
        | ok pk =>
          by_cases hs : isSupported pk.algorithm = true
          · simp [newGRPCSigner, hm, hg, hs]
          · simp [newGRPCSigner, hm, hg, hs]
    · simp [newGRPCSigner, hm]
  · intro signer h
    unfold newGRPCSigner at h
    by_cases hm : kmsKeyNameMatches keyName = true
    · rw [if_neg (by simp [hm])] at h
      cases clientPresent with
      | false => cases h
      | true =>
        rw [if_neg (by simp)] at h
        cases hg : getPublicKey keyName remote with
        | error e =>
          rw [hg] at h
          cases h
        | ok pk =>
          rw [hg] at h
          dsimp only at h
          by_cases hs : isSupported pk.algorithm = true
          · rw [if_neg (by simp [hs])] at h
            cases h
            exact ⟨rfl, rfl⟩
          · rw [if_pos (by simp [hs])] at h
            cases h
    · rw [if_pos (by simp [hm])] at h
      cases h

theorem signer_construction_accepts_iff_witness :
    newGRPCSigner "Wrong/Key/Name" true (fun _ => .ok pkFetchOkW) =
      .error (.malformedKeyName "Wrong/Key/Name") ∧
    (∃ signer,
      newGRPCSigner "projects/p/locations/l/keyRings/r/cryptoKeys/c/cryptoKeyVersions/1"
        true (fun _ => .ok pkVersionedW) = .ok signer) := by
  constructor
  · exact (signer_construction_accepts_iff "Wrong/Key/Name" true
      (fun _ => .ok pkFetchOkW)).2.2.2.1 (by decide) true (fun _ => .ok pkFetchOkW)
  · refine (signer_construction_accepts_iff _ true
      (fun _ => .ok pkVersionedW)).2.2.2.2.2.1.mpr ⟨by decide, rfl, pkVersionedW, by decide, rfl⟩

end Gcpkms
namespace Gcpkms

/-- C8: the gRPC adapter's encrypt request carries the caller's plaintext
and associated data with their checksums, but the REST-path adapter
(`gcpAEAD.Encrypt`) populates the request from the never-written
`plaintextBase64` / `associatedDataBase64` variables — the swapped
`Encode(dst, src)` arguments encode the empty slice into the caller's
buffer — so its request carries empty payload fields regardless of the
input. -/
theorem encrypt_request_payload_divergence :
    (∀ (keyURI : String) (plaintext associatedData : Bytes),
      (grpcEncryptRequest keyURI plaintext associatedData).plaintext = plaintext ∧
      (grpcEncryptRequest keyURI plaintext associatedData).additionalAuthenticatedData =
        associatedData ∧
      (grpcEncryptRequest keyURI plaintext associatedData).plaintextCrc32c =
        some (computeChecksum plaintext) ∧
      (grpcEncryptRequest keyURI plaintext associatedData).additionalAuthenticatedDataCrc32c =
        some (computeChecksum associatedData)) ∧
    (gcpAEADEncryptRequest "k" [1] [2]).plaintext = [] ∧
    (gcpAEADEncryptRequest "k" [1] [2]).plaintext ≠ [1] ∧
    (gcpAEADEncryptRequest "k" [1] [2]).additionalAuthenticatedData = [] ∧
    (∀ (keyURI : String) (plaintext associatedData : Bytes),
      (gcpAEADEncryptRequest keyURI plaintext associatedData).plaintext = []) :=
  ⟨fun _ _ _ => ⟨rfl, rfl, rfl, rfl⟩, rfl, by decide, rfl, fun _ _ _ => rfl⟩

theorem encrypt_request_payload_divergence_witness :
    (gcpAEADEncryptRequest "k" [1] [2]).plaintext = [] :=
  encrypt_request_payload_divergence.2.1

/-- C10: `NewClient` accepts any URI whose ASCII lowercasing starts with
the scheme marker, while the key name is derived by trimming only the
exact lower-case marker; an accepted URI that does not itself start with
the exact marker therefore keeps the marker inside the key name, and one
that does loses exactly the first 10 characters. -/
theorem scheme_marker_case_mismatch_keeps_marker (uri : String) :
    (newClientAccepts uri = true ↔ hasStart (lowerAscii uri) gcpMarker = true) ∧
    (hasStart uri gcpMarker = true →
      trimStart uri gcpMarker = String.mk (uri.toList.drop 10)) ∧
    (hasStart uri gcpMarker = false → trimStart uri gcpMarker = uri) ∧
    (newClientAccepts uri = true →
      getAEADWithContextKeyName uri = some (trimStart uri gcpMarker)) ∧
    (newClientAccepts uri = true → hasStart uri gcpMarker = false →
      getAEADWithContextKeyName uri = some uri) ∧
    (∀ p, clientSupports p uri = true →
      clientGetAEADKeyName p uri = some (trimStart uri gcpMarker)) := by
  refine ⟨Iff.rfl, ?_, ?_, ?_, ?_, ?_⟩
  · intro h
    unfold trimStart
    rw [if_pos h, show gcpMarker.toList.length = 10 from by decide]
  · intro h
    unfold trimStart
    rw [if_neg (by simp [h])]
  · intro h
    unfold getAEADWithContextKeyName
    rw [if_pos h]
  · intro hacc hexact
    unfold getAEADWithContextKeyName trimStart
    rw [if_pos hacc, if_neg (by simp [hexact])]
  · intro p h
    unfold clientGetAEADKeyName
    rw [if_pos h]

theorem scheme_marker_case_mismatch_keeps_marker_witness :
    newClientAccepts "GCP-KMS://x" = true ∧
    getAEADWithContextKeyName "GCP-KMS://x" = some "GCP-KMS://x" ∧
    newClientAccepts "gcp-kms://x" = true ∧
    getAEADWithContextKeyName "gcp-kms://x" = some "x" := by
  have h1 := (scheme_marker_case_mismatch_keeps_marker "GCP-KMS://x").2.2.2.2.1
    (by decide) (by decide)
  have h2 := (scheme_marker_case_mismatch_keeps_marker "gcp-kms://x").2.2.2.1
    (by decide)
  refine ⟨by decide, h1, by decide, ?_⟩
  rw [h2]
  decide

end Gcpkms
